import Mathlib

/-!
Verification of `parsers/MN.py` (Mongolia grid snapshot fetcher).

The Python module fetches one JSON endpoint, validates the decoded payload
(exact key set, no nulls), converts fields (a fixed-format timestamp and five
floats), and assembles a production record and a consumption record.

Shallow embedding conventions:
* JSON scalar values are `JsonVal` (string, number, or null); numbers are
  modelled as rationals, the standard idealization of Python floats.
* A decoded JSON object (Python `dict`) is an association list
  `List (String × JsonVal)`; `dict.keys()` is the list of first components,
  `dict.values()` the list of second components, `dict[k]` is `List.lookup`.
* Python exceptions become the `Except MNError` monad; the distinct
  constructors of `MNError` record which `raise` site fired
  (`ParserException` from the key check, `ParserException` from the null
  check, `float()` conversion failure, `arrow` timestamp parse failure,
  the HTTP status check, JSON decode failure, and `NotImplementedError`).
* `requests.Response` is `HttpResponse`: a status code plus the result of
  `json.loads` on the body (`none` when the body is not valid JSON).
  `Response.ok` in the requests library is `not (400 <= status < 600)`
  (it asks `raise_for_status`), embedded as `HttpResponse.ok`.
* Python `float(x)` on the values that can occur in a decoded JSON scalar is
  `pyFloat`: a number converts to itself, a string is parsed as an optionally
  signed plain decimal literal, anything else (null, non-numeric text) fails.
* `arrow.get(s, "YYYY-MM-DD HH:mm:ss", tzinfo=TZ)` is `parseArrowDateTime`:
  strict fixed-format parse with calendar validation, attaching the zone
  name "Asia/Ulaanbaatar" (UTC+8).
* Python `round(x, 2)` is `pyRound2`: round half to even at two decimals.
-/

/-- A JSON scalar value as it occurs in the decoded payload of this feed:
a string, a number (idealized as a rational), or null. -/
inductive JsonVal where
  | str (s : String)
  | num (q : ℚ)
  | null
deriving DecidableEq, Repr

/-- A decoded JSON object (Python `dict`): an association list from keys to
scalar values, in insertion order. -/
abbrev Payload : Type := List (String × JsonVal)

/-- Mapping `JSON_QUERY_TO_SRC` from MN.py: query field names mapped to the web API
field names, in the source's insertion order. -/
def JSON_QUERY_TO_SRC : List (String × String) :=
  [("time", "date"),
   ("consumptionMW", "syssum"),
   ("solarMW", "sumnar"),
   ("windMW", "sums"),
   ("importMW", "energyimport"),
   ("temperatureC", "t")]

/-- The digits of a character list read as a natural number; fails on a
non-digit or (via the callers) on an empty digit run. -/
def natOfDigits : List Char → ℕ → Option ℕ
  | [], acc => some acc
  | c :: cs, acc =>
      if c.isDigit then natOfDigits cs (acc * 10 + (c.toNat - 48)) else none

/-- Python `float` applied to a string, restricted to the plain decimal
literals this feed carries: an optional sign, then digits with an optional
decimal point (at least one digit overall). Non-numeric text fails, as
`float("abc")` raises `ValueError`. -/
def parseDecimalString (s : String) : Option ℚ :=
  let cs := s.data
  let signed : ℤ × List Char :=
    match cs with
    | '-' :: rest => (-1, rest)
    | '+' :: rest => (1, rest)
    | _ => (1, cs)
  let body := signed.2
  match body.span (fun c => c ≠ '.') with
  | (intPart, []) =>
      if intPart.isEmpty then none
      else (natOfDigits intPart 0).map (fun n => (signed.1 : ℚ) * n)
  | (intPart, _dot :: fracPart) =>
      if intPart.isEmpty && fracPart.isEmpty then none
      else
        match natOfDigits intPart 0, natOfDigits fracPart 0 with
        | some i, some f =>
            some ((signed.1 : ℚ) * ((i : ℚ) + (f : ℚ) / (10 ^ fracPart.length)))
        | _, _ => none

/-- Python `float` applied to a JSON scalar: a number converts to itself,
a string is parsed as a decimal literal, null fails (`TypeError`). -/
def pyFloat : JsonVal → Option ℚ
  | .num q => some q
  | .str s => parseDecimalString s
  | .null => none

/-- Gregorian leap-year test, as used by calendar validation. -/
def isLeapYear (y : ℕ) : Bool :=
  (y % 4 == 0 && y % 100 != 0) || y % 400 == 0

/-- Number of days in a month of a given year. -/
def daysInMonth (y m : ℕ) : ℕ :=
  if m == 2 then (if isLeapYear y then 29 else 28)
  else if m == 4 || m == 6 || m == 9 || m == 11 then 30
  else 31

/-- A zone-aware timestamp as produced by `arrow.get(..., tzinfo=TZ).datetime`:
calendar fields plus the attached zone. `Asia/Ulaanbaatar` is UTC+8. -/
structure PyDateTime where
  year : ℕ
  month : ℕ
  day : ℕ
  hour : ℕ
  minute : ℕ
  second : ℕ
  tzName : String
  utcOffsetHours : ℤ
deriving DecidableEq, Repr

/-- Embedding of `arrow.get(s, "YYYY-MM-DD HH:mm:ss", tzinfo=TZ)`: strict parse of the
fixed 19-character format with calendar validation, attaching the
Asia/Ulaanbaatar zone (UTC+8). Fails on any mismatch (arrow `ParserError`),
and on field values the `datetime` constructor rejects (`ValueError`): the
year is bounded below by `datetime.MINYEAR = 1` (the four-digit format
already bounds it above by `datetime.MAXYEAR = 9999`). -/
def parseArrowDateTime (s : String) : Option PyDateTime :=
  match s.data with
  | [y1, y2, y3, y4, c1, mo1, mo2, c2, d1, d2, c3, h1, h2, c4, mi1, mi2, c5, s1, s2] =>
      if c1 = '-' ∧ c2 = '-' ∧ c3 = ' ' ∧ c4 = ':' ∧ c5 = ':' ∧
          ([y1, y2, y3, y4, mo1, mo2, d1, d2, h1, h2, mi1, mi2, s1, s2].all Char.isDigit) then
        let y := ((y1.toNat - 48) * 1000 + (y2.toNat - 48) * 100 +
                  (y3.toNat - 48) * 10 + (y4.toNat - 48))
        let mo := (mo1.toNat - 48) * 10 + (mo2.toNat - 48)
        let d := (d1.toNat - 48) * 10 + (d2.toNat - 48)
        let h := (h1.toNat - 48) * 10 + (h2.toNat - 48)
        let mi := (mi1.toNat - 48) * 10 + (mi2.toNat - 48)
        let se := (s1.toNat - 48) * 10 + (s2.toNat - 48)
        if 1 ≤ y ∧ 1 ≤ mo ∧ mo ≤ 12 ∧ 1 ≤ d ∧ d ≤ daysInMonth y mo ∧
            h ≤ 23 ∧ mi ≤ 59 ∧ se ≤ 59 then
          some ⟨y, mo, d, h, mi, se, "Asia/Ulaanbaatar", 8⟩
        else none
      else none
  | _ => none

/-- The distinct failure modes of the module, one constructor per `raise`
site or library failure:
`schemaKeys`/`schemaNull` are the two `ParserException`s of `parse_json`,
`floatConversionError` is `float()` raising `ValueError`/`TypeError`,
`timeFormatError` is arrow raising `ParserError`,
`keyLookupError` is a `KeyError` from `web_json[src_key]` (unreachable after
the key-set check), `fetchError` is the `ParserException` of `query` on a
failing HTTP status, `jsonDecodeError` is `json.loads` failing, and
`unsupported` is the `NotImplementedError` for historical dates. -/
inductive MNError where
  | schemaKeys
  | schemaNull
  | floatConversionError
  | timeFormatError
  | keyLookupError
  | fetchError (status : ℕ)
  | jsonDecodeError
  | unsupported
deriving DecidableEq, Repr

deriving instance DecidableEq for Except

/-- Whether an error is one of the `ParserException`s raised by the schema
validation in `parse_json` (the spec's `SchemaError`). -/
def MNError.isSchema : MNError → Bool
  | .schemaKeys => true
  | .schemaNull => true
  | _ => false

/-- The `query_data` dict built by `parse_json`: the six query fields. -/
structure ParsedData where
  time : PyDateTime
  consumptionMW : ℚ
  solarMW : ℚ
  windMW : ℚ
  importMW : ℚ
  temperatureC : ℚ
deriving DecidableEq, Repr

/-- The `time` branch of the conversion loop: `arrow.get(web_json[src_key],
"YYYY-MM-DD HH:mm:ss", tzinfo=TZ).datetime`. A non-string value or a string
not matching the format raises out of `arrow` (not a `ParserException`). -/
def parseTimeValue (v : JsonVal) : Except MNError PyDateTime :=
  match v with
  | .str s =>
      match parseArrowDateTime s with
      | some dt => .ok dt
      | none => .error .timeFormatError
  | _ => .error .timeFormatError

/-- The numeric branch of the conversion loop: `float(web_json[src_key])`.
Failure is a plain `ValueError`/`TypeError`, not a `ParserException`. -/
def parseFloatValue (v : JsonVal) : Except MNError ℚ :=
  match pyFloat v with
  | some q => .ok q
  | none => .error .floatConversionError

/-- Function `parse_json` from MN.py.
Validates that the payload's key set equals the expected source field names
(else `ParserException`, here `schemaKeys`), then that no value is null
(else `ParserException`, here `schemaNull`), then converts the six fields in
the insertion order of `JSON_QUERY_TO_SRC`: `time` via arrow, the rest via
`float`. -/
def parse_json (web_json : Payload) : Except MNError ParsedData :=
  if (JSON_QUERY_TO_SRC.map Prod.snd).toFinset ≠ (web_json.map Prod.fst).toFinset then
    .error .schemaKeys
  else if (web_json.map Prod.snd).any (fun v => decide (v = JsonVal.null)) then
    .error .schemaNull
  else
    match List.lookup "date" web_json, List.lookup "syssum" web_json,
        List.lookup "sumnar" web_json, List.lookup "sums" web_json,
        List.lookup "energyimport" web_json, List.lookup "t" web_json with
    | some dateV, some sysV, some narV, some sumsV, some impV, some tV => do
        let time ← parseTimeValue dateV
        let consumptionMW ← parseFloatValue sysV
        let solarMW ← parseFloatValue narV
        let windMW ← parseFloatValue sumsV
        let importMW ← parseFloatValue impV
        let temperatureC ← parseFloatValue tV
        return ⟨time, consumptionMW, solarMW, windMW, importMW, temperatureC⟩
    | _, _, _, _, _, _ => .error .keyLookupError

/-- A `requests.Response` as seen by `query`: the HTTP status code and the
result of `json.loads` on the body text (`none` when the body is not valid
JSON, in which case `json.loads` would raise). -/
structure HttpResponse where
  status_code : ℕ
  jsonBody : Option Payload

/-- Property `Response.ok` from the requests library: `True` unless
`raise_for_status()` would raise, i.e. unless `400 <= status_code < 600`. -/
def HttpResponse.ok (r : HttpResponse) : Bool :=
  ¬ (400 ≤ r.status_code ∧ r.status_code < 600)

/-- Function `query` from MN.py: performs the GET of the endpoint (the response is the argument
here), raise `ParserException` (`fetchError`) if `not response.ok`, then
`json.loads` the body and `parse_json` the result. -/
def query (resp : HttpResponse) : Except MNError ParsedData :=
  if ¬ resp.ok then
    .error (.fetchError resp.status_code)
  else
    match resp.jsonBody with
    | none => .error .jsonDecodeError
    | some web_json => parse_json web_json

/-- Round half to even at integer precision, the tie-breaking rule of
Python's built-in `round`. -/
def roundHalfEven (q : ℚ) : ℤ :=
  if q - ⌊q⌋ < 1 / 2 then ⌊q⌋
  else if 1 / 2 < q - ⌊q⌋ then ⌊q⌋ + 1
  else if ⌊q⌋ % 2 = 0 then ⌊q⌋ else ⌊q⌋ + 1

/-- Python `round(x, 2)`: round half to even at two decimal places. -/
def pyRound2 (q : ℚ) : ℚ :=
  (roundHalfEven (q * 100) : ℚ) / 100

/-- The `production` sub-dict of the record built by `fetch_production`. -/
structure ProductionMix where
  unknown : ℚ
  solar : ℚ
  wind : ℚ
deriving DecidableEq, Repr

/-- The record returned by `fetch_production`. -/
structure ProductionRecord where
  zoneKey : String
  datetime : PyDateTime
  production : ProductionMix
  source : String
deriving DecidableEq, Repr

/-- The record returned by `fetch_consumption`. -/
structure ConsumptionRecord where
  zoneKey : String
  datetime : PyDateTime
  consumption : ℚ
  source : String
deriving DecidableEq, Repr

/-- Function `fetch_production` from MN.py. `if target_datetime:` is truthy exactly
when a datetime was passed (datetime objects are always truthy), raising
`NotImplementedError` before `query(session)` runs; the HTTP exchange of
`query` is the `resp` argument. Then `unknownMW` is derived by rounding the
linear combination to 2 decimals and the record assembled. -/
def fetch_production (zone_key : String := "MN") (target_datetime : Option PyDateTime := none)
    (resp : HttpResponse) : Except MNError ProductionRecord :=
  if target_datetime.isSome then
    .error .unsupported
  else do
    let query_data ← query resp
    let unknownMW := pyRound2
      (query_data.consumptionMW - query_data.importMW
        - query_data.solarMW - query_data.windMW)
    return { zoneKey := zone_key
             datetime := query_data.time
             production :=
               { unknown := unknownMW
                 solar := query_data.solarMW
                 wind := query_data.windMW }
             source := "https://ndc.energy.mn/" }

/-- Function `fetch_consumption` from MN.py: same historical-date guard, then the
consumption record is assembled from `query`'s result. -/
def fetch_consumption (zone_key : String := "MN") (target_datetime : Option PyDateTime := none)
    (resp : HttpResponse) : Except MNError ConsumptionRecord :=
  if target_datetime.isSome then
    .error .unsupported
  else do
    let query_data ← query resp
    return { zoneKey := zone_key
             datetime := query_data.time
             consumption := query_data.consumptionMW
             source := "https://ndc.energy.mn/" }

/-- Operation `dict.keys()` as a state-instrumented read: returns the keys and the
dict state after the call. -/
def dictKeysOp (st : Payload) : List String × Payload :=
  (st.map Prod.fst, st)

/-- Operation `dict.values()` as a state-instrumented read. -/
def dictValuesOp (st : Payload) : List JsonVal × Payload :=
  (st.map Prod.snd, st)

/-- Operation `dict[k]` as a state-instrumented read (`none` models `KeyError`). -/
def dictGetOp (st : Payload) (k : String) : Option JsonVal × Payload :=
  (List.lookup k st, st)

/-- Function `parse_json` instrumented with the state of its argument dict: every
operation the source performs on `web_json` (`.keys()`, `.values()`, and one
`web_json[src_key]` per loop iteration) is threaded through the dict state,
and the final state is returned next to the result. The source performs no
mutating operation on `web_json`, which is why each step is one of the read
operations above. -/
def parse_json_st (web_json : Payload) : Except MNError ParsedData × Payload :=
  let ks := dictKeysOp web_json
  if (JSON_QUERY_TO_SRC.map Prod.snd).toFinset ≠ ks.1.toFinset then
    (.error .schemaKeys, ks.2)
  else
    let vs := dictValuesOp ks.2
    if vs.1.any (fun v => decide (v = JsonVal.null)) then
      (.error .schemaNull, vs.2)
    else
      let g1 := dictGetOp vs.2 "date"
      let g2 := dictGetOp g1.2 "syssum"
      let g3 := dictGetOp g2.2 "sumnar"
      let g4 := dictGetOp g3.2 "sums"
      let g5 := dictGetOp g4.2 "energyimport"
      let g6 := dictGetOp g5.2 "t"
      match g1.1, g2.1, g3.1, g4.1, g5.1, g6.1 with
      | some dateV, some sysV, some narV, some sumsV, some impV, some tV =>
          (do
            let time ← parseTimeValue dateV
            let consumptionMW ← parseFloatValue sysV
            let solarMW ← parseFloatValue narV
            let windMW ← parseFloatValue sumsV
            let importMW ← parseFloatValue impV
            let temperatureC ← parseFloatValue tV
            return ⟨time, consumptionMW, solarMW, windMW, importMW, temperatureC⟩,
           g6.2)
      | _, _, _, _, _, _ => (.error .keyLookupError, g6.2)

/-- The example payload from the docstring of `parse_json`:
`{"date":"2023-06-27 18:00:00","syssum":"869.37","sumnar":42.34,
"sums":119.79,"energyimport":"49.58","t":"17"}`. -/
def examplePayload : Payload :=
  [("date", .str "2023-06-27 18:00:00"),
   ("syssum", .str "869.37"),
   ("sumnar", .num (4234 / 100)),
   ("sums", .num (11979 / 100)),
   ("energyimport", .str "49.58"),
   ("t", .str "17")]

/-- The parse of `examplePayload`. -/
def exampleParsed : ParsedData :=
  { time := ⟨2023, 6, 27, 18, 0, 0, "Asia/Ulaanbaatar", 8⟩
    consumptionMW := 86937 / 100
    solarMW := 4234 / 100
    windMW := 11979 / 100
    importMW := 4958 / 100
    temperatureC := 17 }

/-- Evaluation of `parse_json` on the docstring example payload. -/
theorem parse_json_examplePayload : parse_json examplePayload = .ok exampleParsed := by
  have hkeys : (JSON_QUERY_TO_SRC.map Prod.snd).toFinset
      = (examplePayload.map Prod.fst).toFinset := by decide
  simp [parse_json, examplePayload, exampleParsed, JSON_QUERY_TO_SRC, parseTimeValue,
        parseFloatValue, pyFloat, parseDecimalString, parseArrowDateTime, natOfDigits,
        daysInMonth, isLeapYear, hkeys, List.lookup]
  norm_num
  rfl

/-- The instrumented parse returns the direct embedding's result next to an
unchanged dict state: every operation the source performs on `web_json` is a
read. -/
theorem parse_json_st_eq (p : Payload) : parse_json_st p = (parse_json p, p) := by
  unfold parse_json_st parse_json dictKeysOp dictValuesOp dictGetOp
  dsimp only
  split
  · rfl
  · split
    · rfl
    · split <;> rfl

/-- The instrumented parse agrees with the direct embedding of `parse_json`. -/
theorem parse_json_st_fst (p : Payload) : (parse_json_st p).1 = parse_json p := by
  rw [parse_json_st_eq]

/-- The dict state after `parse_json` is the dict that was passed in. -/
theorem parse_json_st_snd (p : Payload) : (parse_json_st p).2 = p := by
  rw [parse_json_st_eq]

/-- A payload whose key set differs from the expected source field names is
rejected by the first validation of `parse_json`. -/
theorem parse_json_of_keys_ne (p : Payload)
    (h : (JSON_QUERY_TO_SRC.map Prod.snd).toFinset ≠ (p.map Prod.fst).toFinset) :
    parse_json p = .error .schemaKeys := by
  unfold parse_json
  rw [if_pos h]

/-- A payload with the expected key set but a null value is rejected by the
second validation of `parse_json`. -/
theorem parse_json_of_null_mem (p : Payload)
    (hk : (JSON_QUERY_TO_SRC.map Prod.snd).toFinset = (p.map Prod.fst).toFinset)
    (hnull : ∃ kv ∈ p, kv.2 = JsonVal.null) :
    parse_json p = .error .schemaNull := by
  have hany : (p.map Prod.snd).any (fun v => decide (v = JsonVal.null)) = true := by
    rcases hnull with ⟨kv, hmem, hv⟩
    exact List.any_eq_true.mpr ⟨kv.2, List.mem_map_of_mem Prod.snd hmem, by simp [hv]⟩
  unfold parse_json
  rw [if_neg (fun hne => hne hk), if_pos hany]

/-- Claim C3: for every payload whose key set is not exactly the expected
fixed set of six source field names (a key missing, or an extra key present),
`parse_json` fails with the key-set `SchemaError`. -/
theorem parse_json_keyset_mismatch_schemaError (p : Payload)
    (h : (p.map Prod.fst).toFinset ≠ (JSON_QUERY_TO_SRC.map Prod.snd).toFinset) :
    parse_json p = .error .schemaKeys :=
  parse_json_of_keys_ne p (fun heq => h heq.symm)

/-- Witness for C3: a payload with only the `date` key is rejected with the
key-set `SchemaError`. -/
theorem parse_json_keyset_mismatch_schemaError_witness :
    parse_json [("date", JsonVal.str "2023-06-27 18:00:00")] = .error .schemaKeys :=
  parse_json_keyset_mismatch_schemaError
    [("date", JsonVal.str "2023-06-27 18:00:00")] (by decide)

/-- Claim C4: every payload containing a null value fails with a
`SchemaError`, and the null check runs only after the key-set check: when the
key set also mismatches, the failure is the key-set-mismatch error. -/
theorem parse_json_null_schemaError_after_keyset (p : Payload)
    (hnull : ∃ kv ∈ p, kv.2 = JsonVal.null) :
    (∃ e, parse_json p = .error e ∧ e.isSchema = true) ∧
    ((p.map Prod.fst).toFinset ≠ (JSON_QUERY_TO_SRC.map Prod.snd).toFinset →
      parse_json p = .error .schemaKeys) := by
  by_cases hk : (JSON_QUERY_TO_SRC.map Prod.snd).toFinset = (p.map Prod.fst).toFinset
  · refine ⟨⟨.schemaNull, parse_json_of_null_mem p hk hnull, rfl⟩, fun hne => ?_⟩
    exact absurd hk.symm hne
  · exact ⟨⟨.schemaKeys, parse_json_of_keys_ne p hk, rfl⟩,
      fun _ => parse_json_of_keys_ne p hk⟩

/-- Witness for C4: a one-key payload holding a null fails with a
`SchemaError`, namely the key-set-mismatch one since its key set is wrong. -/
theorem parse_json_null_schemaError_after_keyset_witness :
    (∃ e, parse_json [("syssum", JsonVal.null)] = .error e ∧ e.isSchema = true) ∧
    parse_json [("syssum", JsonVal.null)] = .error .schemaKeys := by
  have h := parse_json_null_schemaError_after_keyset [("syssum", JsonVal.null)]
    ⟨("syssum", JsonVal.null), by decide, rfl⟩
  exact ⟨h.1, h.2 (by decide)⟩

/-- Claim C6: with a non-empty target timestamp, both fetch functions fail
with `UnsupportedError` whatever the HTTP exchange would have produced (the
guard precedes the request, so the result does not depend on `resp`). -/
theorem fetch_with_target_datetime_unsupported (zone : String) (t : PyDateTime)
    (resp : HttpResponse) :
    fetch_production zone (some t) resp = .error .unsupported ∧
    fetch_consumption zone (some t) resp = .error .unsupported :=
  ⟨rfl, rfl⟩

/-- Claim C8: `parse_json` is deterministic and stateless: a second call on
the dict state left behind by a first call returns the first call's result. -/
theorem parse_json_second_call_identical (p : Payload) :
    (parse_json_st ((parse_json_st p).2)).1 = (parse_json_st p).1 := by
  rw [parse_json_st_snd]

/-- Claim C9: `parse_json` never modifies its input mapping: the dict state
after a call is the input dict, whether the call succeeds or fails, and the
instrumented run returns exactly what the pure embedding returns. -/
theorem parse_json_input_unchanged (p : Payload) :
    (parse_json_st p).2 = p ∧ (parse_json_st p).1 = parse_json p :=
  ⟨parse_json_st_snd p, parse_json_st_fst p⟩

/-- A payload with the exact expected key set, no nulls, and a non-numeric
string where a number is expected (`syssum = "abc"`). -/
def nonNumericPayload : Payload :=
  [("date", .str "2023-06-27 18:00:00"),
   ("syssum", .str "abc"),
   ("sumnar", .num 1),
   ("sums", .num 2),
   ("energyimport", .num 3),
   ("t", .num 4)]

/-- Claim C10: a payload can pass both validation checks and still make
`parse_json` fail, with a plain conversion error rather than a
`SchemaError`: `syssum = "abc"` survives validation and then breaks the
`float` conversion. -/
theorem parse_json_non_numeric_conversion_error :
    (nonNumericPayload.map Prod.fst).toFinset
        = (JSON_QUERY_TO_SRC.map Prod.snd).toFinset ∧
    (∀ kv ∈ nonNumericPayload, kv.2 ≠ JsonVal.null) ∧
    parse_json nonNumericPayload = .error .floatConversionError ∧
    MNError.floatConversionError.isSchema = false := by
  refine ⟨by decide, by decide, ?_, rfl⟩
  have hkeys : (JSON_QUERY_TO_SRC.map Prod.snd).toFinset
      = (nonNumericPayload.map Prod.fst).toFinset := by decide
  simp [parse_json, nonNumericPayload, JSON_QUERY_TO_SRC, parseTimeValue,
        parseFloatValue, pyFloat, parseDecimalString, parseArrowDateTime, natOfDigits,
        daysInMonth, isLeapYear, hkeys, List.lookup]
  rfl

/-- The timestamp parsed from the example payload's date string. -/
def exampleTime : PyDateTime :=
  ⟨2023, 6, 27, 18, 0, 0, "Asia/Ulaanbaatar", 8⟩

/-- A successful HTTP exchange delivering the example payload. -/
def exampleResp : HttpResponse :=
  ⟨200, some examplePayload⟩

/-- The production record assembled from the example payload. -/
def exampleProdRecord : ProductionRecord :=
  ⟨"MN", exampleTime, ⟨65766 / 100, 4234 / 100, 11979 / 100⟩, "https://ndc.energy.mn/"⟩

/-- The consumption record assembled from the example payload. -/
def exampleConsRecord : ConsumptionRecord :=
  ⟨"MN", exampleTime, 86937 / 100, "https://ndc.energy.mn/"⟩

/-- Evaluation of `query` on the example exchange. -/
theorem query_exampleResp : query exampleResp = .ok exampleParsed := by
  simp [query, exampleResp, HttpResponse.ok, parse_json_examplePayload]

/-- Evaluation of `fetch_production` on the example exchange. -/
theorem fetch_production_example :
    fetch_production "MN" none exampleResp = .ok exampleProdRecord := by
  simp [fetch_production, query_exampleResp, exampleProdRecord, exampleParsed,
        exampleTime]
  norm_num [pyRound2, roundHalfEven]

/-- Evaluation of `fetch_consumption` on the example exchange. -/
theorem fetch_consumption_example :
    fetch_consumption "MN" none exampleResp = .ok exampleConsRecord := by
  simp [fetch_consumption, query_exampleResp, exampleConsRecord, exampleParsed,
        exampleTime]

/-- Claim C1: whenever `fetch_production` succeeds, the `unknown` value of
the returned record is `round(consumptionMW - importMW - solarMW - windMW, 2)`
computed from the parsed reading; in particular with consumptionMW=869.37,
importMW=49.58, solarMW=42.34, windMW=119.79 the result is 657.66. -/
theorem fetch_production_unknownMW_formula :
    (∀ zone td resp rec, fetch_production zone td resp = .ok rec →
      ∃ qd, query resp = .ok qd ∧
        rec.production.unknown =
          pyRound2 (qd.consumptionMW - qd.importMW - qd.solarMW - qd.windMW)) ∧
    pyRound2 ((869.37 : ℚ) - 49.58 - 42.34 - 119.79) = 657.66 := by
  constructor
  · intro zone td resp rec h
    cases td with
    | some t => simp [fetch_production] at h
    | none =>
      simp only [fetch_production, Option.isSome_none, Bool.false_eq_true,
        if_false] at h
      cases hq : query resp with
      | error e => rw [hq] at h; exact absurd h (by simp [Except.bind])
      | ok qd =>
        rw [hq] at h
        refine ⟨qd, rfl, ?_⟩
        have h' : Except.ok (ε := MNError)
            { zoneKey := zone, datetime := qd.time,
              production :=
                { unknown := pyRound2
                    (qd.consumptionMW - qd.importMW - qd.solarMW - qd.windMW),
                  solar := qd.solarMW, wind := qd.windMW },
              source := "https://ndc.energy.mn/" } = Except.ok rec := h
        cases h'
        rfl
  · norm_num [pyRound2, roundHalfEven]

/-- Witness for C1: instantiated on the example exchange, whose
`fetch_production` run succeeds. -/
theorem fetch_production_unknownMW_formula_witness :
    ∃ qd, query exampleResp = .ok qd ∧
      exampleProdRecord.production.unknown =
        pyRound2 (qd.consumptionMW - qd.importMW - qd.solarMW - qd.windMW) :=
  fetch_production_unknownMW_formula.1 "MN" none exampleResp exampleProdRecord
    fetch_production_example

/-- Claim C7: a successful `fetch_production` returns zoneKey = the zone
argument, datetime = the parsed time, production = {unknown, solar, wind}
from the parsed reading, and the fixed attribution URL as source; a
successful `fetch_consumption` returns the same zoneKey, datetime and source
with consumption = consumptionMW. -/
theorem fetch_records_shape :
    (∀ zone td resp rec, fetch_production zone td resp = .ok rec →
      rec.zoneKey = zone ∧ rec.source = "https://ndc.energy.mn/" ∧
      ∃ qd, query resp = .ok qd ∧ rec.datetime = qd.time ∧
        rec.production =
          ⟨pyRound2 (qd.consumptionMW - qd.importMW - qd.solarMW - qd.windMW),
           qd.solarMW, qd.windMW⟩) ∧
    (∀ zone td resp rec, fetch_consumption zone td resp = .ok rec →
      rec.zoneKey = zone ∧ rec.source = "https://ndc.energy.mn/" ∧
      ∃ qd, query resp = .ok qd ∧ rec.datetime = qd.time ∧
        rec.consumption = qd.consumptionMW) := by
  constructor
  · intro zone td resp rec h
    cases td with
    | some t => simp [fetch_production] at h
    | none =>
      simp only [fetch_production, Option.isSome_none, Bool.false_eq_true,
        if_false] at h
      cases hq : query resp with
      | error e => rw [hq] at h; exact absurd h (by simp [Except.bind])
      | ok qd =>
        rw [hq] at h
        have h' : Except.ok (ε := MNError)
            { zoneKey := zone, datetime := qd.time,
              production :=
                { unknown := pyRound2
                    (qd.consumptionMW - qd.importMW - qd.solarMW - qd.windMW),
                  solar := qd.solarMW, wind := qd.windMW },
              source := "https://ndc.energy.mn/" } = Except.ok rec := h
        cases h'
        exact ⟨rfl, rfl, qd, rfl, rfl, rfl⟩
  · intro zone td resp rec h
    cases td with
    | some t => simp [fetch_consumption] at h
    | none =>
      simp only [fetch_consumption, Option.isSome_none, Bool.false_eq_true,
        if_false] at h
      cases hq : query resp with
      | error e => rw [hq] at h; exact absurd h (by simp [Except.bind])
      | ok qd =>
        rw [hq] at h
        have h' : Except.ok (ε := MNError)
            { zoneKey := zone, datetime := qd.time,
              consumption := qd.consumptionMW,
              source := "https://ndc.energy.mn/" } = Except.ok rec := h
        cases h'
        exact ⟨rfl, rfl, qd, rfl, rfl, rfl⟩

/-- Witness for C7: both record shapes instantiated on the example exchange. -/
theorem fetch_records_shape_witness :
    (exampleProdRecord.zoneKey = "MN" ∧
      exampleProdRecord.source = "https://ndc.energy.mn/" ∧
      ∃ qd, query exampleResp = .ok qd ∧ exampleProdRecord.datetime = qd.time ∧
        exampleProdRecord.production =
          ⟨pyRound2 (qd.consumptionMW - qd.importMW - qd.solarMW - qd.windMW),
           qd.solarMW, qd.windMW⟩) ∧
    (exampleConsRecord.zoneKey = "MN" ∧
      exampleConsRecord.source = "https://ndc.energy.mn/" ∧
      ∃ qd, query exampleResp = .ok qd ∧ exampleConsRecord.datetime = qd.time ∧
        exampleConsRecord.consumption = qd.consumptionMW) :=
  ⟨fetch_records_shape.1 "MN" none exampleResp exampleProdRecord
      fetch_production_example,
   fetch_records_shape.2 "MN" none exampleResp exampleConsRecord
      fetch_consumption_example⟩

/-- Counterexample to C5 as stated: an HTTP 304 response is not 2xx, yet
`query` does not fail with `FetchError` — requests' `Response.ok` is
`status_code < 400`, so the body is decoded and parsed. -/
theorem query_304_no_fetchError :
    ¬ (200 ≤ 304 ∧ 304 < 300) ∧
    query ⟨304, some examplePayload⟩ = .ok exampleParsed := by
  refine ⟨by decide, ?_⟩
  simp [query, HttpResponse.ok, parse_json_examplePayload]

/-- Claim C5 (amended): for every response whose status is a failure in
requests' sense (`400 ≤ status_code < 600`, i.e. `not response.ok`), `query`
fails with `FetchError` carrying the status code, whatever the body — even a
body that is not decodable JSON — so no JSON parsing is attempted. -/
theorem query_not_ok_fetchError (resp : HttpResponse)
    (h4 : 400 ≤ resp.status_code) (h6 : resp.status_code < 600) :
    query resp = .error (.fetchError resp.status_code) := by
  simp [query, HttpResponse.ok, h4, h6]

/-- Witness for C5 (amended): a 404 response with an undecodable body fails
with `FetchError 404`. -/
theorem query_not_ok_fetchError_witness :
    query ⟨404, none⟩ = .error (.fetchError 404) :=
  query_not_ok_fetchError ⟨404, none⟩ (by decide) (by decide)

/-- Any timestamp produced by the arrow parse carries the fixed
Asia/Ulaanbaatar zone (UTC+8). -/
theorem parseArrowDateTime_tz (s : String) (dt : PyDateTime)
    (h : parseArrowDateTime s = some dt) :
    dt.tzName = "Asia/Ulaanbaatar" ∧ dt.utcOffsetHours = 8 := by
  unfold parseArrowDateTime at h
  split at h
  · split at h
    · dsimp only at h
      split at h
      · cases h; exact ⟨rfl, rfl⟩
      · exact absurd h (by simp)
    · exact absurd h (by simp)
  · exact absurd h (by simp)

/-- A payload with the exact expected key set, no nulls, and a `date` string
that does not match the fixed timestamp format. -/
def malformedDatePayload : Payload :=
  [("date", .str "not a timestamp"),
   ("syssum", .num 1),
   ("sumnar", .num 2),
   ("sums", .num 3),
   ("energyimport", .num 4),
   ("t", .num 5)]

/-- Counterexample to C2 as stated: having exactly the six expected keys and
only non-null values does not make `parse_json` succeed — a `date` value
that is not a well-formed timestamp makes the conversion step fail. -/
theorem parse_json_exact_keys_nonnull_can_fail :
    (malformedDatePayload.map Prod.fst).toFinset
        = (JSON_QUERY_TO_SRC.map Prod.snd).toFinset ∧
    (∀ kv ∈ malformedDatePayload, kv.2 ≠ JsonVal.null) ∧
    parse_json malformedDatePayload = .error .timeFormatError := by
  refine ⟨by decide, by decide, ?_⟩
  have hkeys : (JSON_QUERY_TO_SRC.map Prod.snd).toFinset
      = (malformedDatePayload.map Prod.fst).toFinset := by decide
  simp [parse_json, malformedDatePayload, JSON_QUERY_TO_SRC, parseTimeValue,
        parseFloatValue, pyFloat, parseDecimalString, parseArrowDateTime, natOfDigits,
        daysInMonth, isLeapYear, hkeys, List.lookup]
  rfl

/-- Claim C2 (amended): for every payload with exactly the six expected keys,
no null values, a `date` value that is a string in the fixed
`YYYY-MM-DD HH:mm:ss` format, and the other five values numeric or numeric
strings, `parse_json` succeeds; each numeric output field is the source value
cast to float, and the time field is the parsed date in the fixed
Asia/Ulaanbaatar zone (UTC+8). -/
theorem parse_json_valid_convertible_ok (p : Payload)
    (hkeys : (p.map Prod.fst).toFinset = (JSON_QUERY_TO_SRC.map Prod.snd).toFinset)
    (hnonull : ∀ kv ∈ p, kv.2 ≠ JsonVal.null)
    (s : String) (dt : PyDateTime) (cv nv wv iv tv : JsonVal) (c n w i t : ℚ)
    (hdate : List.lookup "date" p = some (.str s))
    (hdt : parseArrowDateTime s = some dt)
    (hsys : List.lookup "syssum" p = some cv) (hc : pyFloat cv = some c)
    (hnar : List.lookup "sumnar" p = some nv) (hn : pyFloat nv = some n)
    (hsums : List.lookup "sums" p = some wv) (hw : pyFloat wv = some w)
    (himp : List.lookup "energyimport" p = some iv) (hi : pyFloat iv = some i)
    (ht : List.lookup "t" p = some tv) (hti : pyFloat tv = some t) :
    parse_json p = .ok ⟨dt, c, n, w, i, t⟩ ∧
    dt.tzName = "Asia/Ulaanbaatar" ∧ dt.utcOffsetHours = 8 := by
  refine ⟨?_, parseArrowDateTime_tz s dt hdt⟩
  have hany : (p.map Prod.snd).any (fun v => decide (v = JsonVal.null)) = false := by
    rw [List.any_eq_false]
    intro v hv
    rcases List.mem_map.mp hv with ⟨kv, hkv, rfl⟩
    simpa using hnonull kv hkv
  have h1 : ((JSON_QUERY_TO_SRC.map Prod.snd).toFinset
      ≠ (p.map Prod.fst).toFinset) ↔ False :=
    iff_false_intro (fun hne => hne hkeys.symm)
  unfold parse_json
  simp only [h1, if_false, hany, Bool.false_eq_true, hdate, hsys, hnar, hsums, himp, ht]
  simp [parseTimeValue, parseFloatValue, hdt, hc, hn, hw, hi, hti]
  rfl

/-- Witness for C2 (amended): instantiated on the docstring example payload,
whose values are all convertible. -/
theorem parse_json_valid_convertible_ok_witness :
    parse_json examplePayload = .ok ⟨exampleTime, 86937 / 100, 4234 / 100,
      11979 / 100, 4958 / 100, 17⟩ ∧
    exampleTime.tzName = "Asia/Ulaanbaatar" ∧ exampleTime.utcOffsetHours = 8 :=
  parse_json_valid_convertible_ok examplePayload (by decide) (by decide)
    "2023-06-27 18:00:00" exampleTime
    (.str "869.37") (.num (4234 / 100)) (.num (11979 / 100)) (.str "49.58")
    (.str "17")
    (86937 / 100) (4234 / 100) (11979 / 100) (4958 / 100) 17
    rfl (by decide)
    rfl (by simp [pyFloat, parseDecimalString, natOfDigits]; try norm_num)
    rfl rfl
    rfl rfl
    rfl (by simp [pyFloat, parseDecimalString, natOfDigits]; try norm_num)
    rfl (by simp [pyFloat, parseDecimalString, natOfDigits]; try norm_num)
